import Mathlib

/-!
Shallow embedding of `asgi.py` (truman369/wksp-api): a small HTTP API that
drives on/off relays (local GPIO pin or remote WiFi power switch) and
I2C environmental sensors.

Machine-level conventions of the embedding:
* Python exceptions are modelled with `Except PyError`.
* The mutable outside world (raw pin levels, remote switch endpoints) is an
  explicit `World` value threaded through the relay operations.
* Every transport operation (pin read/write, HTTP GET/PUT) is logged in a
  `List TransportOp` so that claims about "number of transport reads/writes"
  can be stated literally.
* The `requests` library raises `requests.exceptions.ConnectionError` when the
  connection fails (connection refused; `ConnectTimeout` subclasses
  `ConnectionError`), but `requests.exceptions.ReadTimeout` subclasses only
  `Timeout`, not `ConnectionError`.  The code's `except ConnectionError`
  clauses therefore do not catch read timeouts; `NetOutcome` keeps the three
  failure modes distinct for exactly this reason.
-/

/-- Outcome of one HTTP request to a remote switch endpoint, as seen by the
`requests` library: success, a connection-level failure (connection refused),
a connect timeout (a `ConnectionError` subclass), or a read timeout (not a
`ConnectionError`). -/
inductive NetOutcome where
  | ok : NetOutcome
  | connRefused : NetOutcome
  | connectTimeout : NetOutcome
  | readTimeout : NetOutcome
deriving DecidableEq

/-- Whether an outcome is caught by `except requests.exceptions.ConnectionError`:
`ConnectTimeout` subclasses `ConnectionError`, `ReadTimeout` does not. -/
def NetOutcome.isConnErr : NetOutcome → Bool
  | .connRefused => true
  | .connectTimeout => true
  | _ => false

/-- Python exceptions that the embedded code can raise. -/
inductive PyError where
  /-- `Relay.UnavailableError` -/
  | relayUnavailable : PyError
  /-- `Sensor.UnavailableError` -/
  | sensorUnavailable : PyError
  /-- `UnboundLocalError`: a local variable (`res` in `Relay.get_state`) is
  used without ever being assigned. -/
  | unboundLocal : PyError
  /-- `KeyError` on a dict access such as `self.attrs['pin']`. -/
  | keyError : String → PyError
  /-- `requests.exceptions.ReadTimeout` escaping uncaught. -/
  | readTimeoutError : PyError
  /-- Any other exception with its message. -/
  | exception : String → PyError
deriving DecidableEq

/-- One transport-level device operation: a raw pin read/write or an HTTP
GET/PUT to a remote switch.  `pinWrite`/`httpPut` carry the integer actually
driven/sent (`int(not state)` resp. `int(state)`). -/
inductive TransportOp where
  | pinRead : Nat → TransportOp
  | pinWrite : Nat → Nat → TransportOp
  | httpGet : String → TransportOp
  | httpPut : String → Nat → TransportOp
deriving DecidableEq

/-- Transport writes: pin output or HTTP PUT. -/
def TransportOp.isWrite : TransportOp → Bool
  | .pinWrite _ _ => true
  | .httpPut _ _ => true
  | _ => false

/-- Transport reads: pin input or HTTP GET. -/
def TransportOp.isRead : TransportOp → Bool
  | .pinRead _ => true
  | .httpGet _ => true
  | _ => false

/-- Number of transport writes in an operation log. -/
def writeCount (ops : List TransportOp) : Nat :=
  (ops.filter TransportOp.isWrite).length

/-- Number of transport reads in an operation log. -/
def readCount (ops : List TransportOp) : Nat :=
  (ops.filter TransportOp.isRead).length

/-- The `attrs` dict of a relay config.  A `Pin` (GPIO) relay carries
`{'pin': n}`, a `RemoteSwitch` (WiFi) relay carries `{'url': u}`; a missing
key raises `KeyError` at the access site. -/
structure Attrs where
  pin : Option Nat
  url : Option String
deriving DecidableEq

/-- State of one remote switch endpoint: what a GET resp. PUT to its URL
does right now, and the boolean `state` field its JSON body reports. -/
structure RemoteEndpoint where
  getOutcome : NetOutcome
  putOutcome : NetOutcome
  state : Bool

/-- The outside world: raw electrical level of every GPIO pin
(`true` = high = 1) and the remote endpoint behind every URL. -/
structure World where
  pins : Nat → Bool
  remote : String → RemoteEndpoint

/-- `class Relay` — common relay class, dispatching on the `type` string. -/
structure Relay where
  type : String
  attrs : Attrs
deriving DecidableEq

/-- `Relay.__init__`: stores type and attrs; for `'GPIO'` it configures the
pin as an output (`GPIO.setup(self.attrs['pin'], GPIO.OUT)`, raising
`KeyError` if `'pin'` is missing).  No other type string is validated. -/
def Relay.init (relay_type : String) (attrs : Attrs) : Except PyError Relay :=
  if relay_type = "GPIO" then
    match attrs.pin with
    | none => .error (.keyError "pin")
    | some _ => .ok ⟨relay_type, attrs⟩
  else .ok ⟨relay_type, attrs⟩

/-- `Relay.get_state`: for `'GPIO'`, `not bool(GPIO.input(pin))` (active-low);
for `'WiFi'`, `requests.get(url)` with `except ConnectionError` raising
`UnavailableError`, else `bool(res.json()['state'])`.  For any other type
neither branch assigns `res`, so `return res` raises `UnboundLocalError`. -/
def Relay.get_state (r : Relay) (w : World) :
    Except PyError Bool × List TransportOp :=
  if r.type = "GPIO" then
    match r.attrs.pin with
    | none => (.error (.keyError "pin"), [])
    | some p => (.ok (!(w.pins p)), [.pinRead p])
  else if r.type = "WiFi" then
    match r.attrs.url with
    | none => (.error (.keyError "url"), [])
    | some u =>
      match (w.remote u).getOutcome with
      | .ok => (.ok (w.remote u).state, [.httpGet u])
      | .connRefused => (.error .relayUnavailable, [.httpGet u])
      | .connectTimeout => (.error .relayUnavailable, [.httpGet u])
      | .readTimeout => (.error .readTimeoutError, [.httpGet u])
  else (.error .unboundLocal, [])

/-- `Relay.set_state`: first reads the current state (`if self.get_state() ==
state: return`), then for `'GPIO'` drives `int(not state)` onto the pin and for
`'WiFi'` PUTs `{'state': int(state)}` to the URL, with `except ConnectionError`
raising `UnavailableError`.  A successful PUT switches the remote state. -/
def Relay.set_state (r : Relay) (state : Bool) (w : World) :
    Except PyError Unit × World × List TransportOp :=
  match Relay.get_state r w with
  | (.error e, ops) => (.error e, w, ops)
  | (.ok cur, ops) =>
    if cur = state then (.ok (), w, ops)
    else if r.type = "GPIO" then
      match r.attrs.pin with
      | none => (.error (.keyError "pin"), w, ops)
      | some p =>
        (.ok (), ⟨Function.update w.pins p (!state), w.remote⟩,
          ops ++ [.pinWrite p (if state then 0 else 1)])
    else if r.type = "WiFi" then
      match r.attrs.url with
      | none => (.error (.keyError "url"), w, ops)
      | some u =>
        match (w.remote u).putOutcome with
        | .ok =>
          (.ok (),
            ⟨w.pins, Function.update w.remote u
              { w.remote u with state := state }⟩,
            ops ++ [.httpPut u (if state then 1 else 0)])
        | .connRefused =>
          (.error .relayUnavailable, w, ops ++ [.httpPut u (if state then 1 else 0)])
        | .connectTimeout =>
          (.error .relayUnavailable, w, ops ++ [.httpPut u (if state then 1 else 0)])
        | .readTimeout =>
          (.error .readTimeoutError, w, ops ++ [.httpPut u (if state then 1 else 0)])
    else (.ok (), w, ops)

/-- `Relay.toggle`: `self.set_state(not self.get_state())`. -/
def Relay.toggle (r : Relay) (w : World) :
    Except PyError Unit × World × List TransportOp :=
  match Relay.get_state r w with
  | (.error e, ops) => (.error e, w, ops)
  | (.ok cur, ops) =>
    match Relay.set_state r (!cur) w with
    | (res, w', ops') => (res, w', ops ++ ops')

/-- The record returned by `Relay.info`: type, configured attrs and current
state merged into one dict. -/
structure RelayInfo where
  type : String
  attrs : Attrs
  state : Bool
deriving DecidableEq

/-- `Relay.info`: `{'type': self.type, **self.attrs, 'state': self.get_state()}`;
raises whatever `get_state` raises. -/
def Relay.info (r : Relay) (w : World) :
    Except PyError RelayInfo × List TransportOp :=
  match Relay.get_state r w with
  | (.error e, ops) => (.error e, ops)
  | (.ok s, ops) => (.ok ⟨r.type, r.attrs, s⟩, ops)

/-- A calibration template such as `"{0} * 1.8 + 32"`: an arithmetic
expression over one free variable (the raw reading substituted for `{0}`),
modelling the instantiated expression the code evaluates. -/
inductive CalExpr where
  | const : ℚ → CalExpr
  | var : CalExpr
  | add : CalExpr → CalExpr → CalExpr
  | sub : CalExpr → CalExpr → CalExpr
  | mul : CalExpr → CalExpr → CalExpr
  | div : CalExpr → CalExpr → CalExpr
deriving DecidableEq

/-- Evaluate a calibration expression at the raw reading `v`. -/
def CalExpr.eval : CalExpr → ℚ → ℚ
  | .const c, _ => c
  | .var, v => v
  | .add a b, v => a.eval v + b.eval v
  | .sub a b, v => a.eval v - b.eval v
  | .mul a b, v => a.eval v * b.eval v
  | .div a b, v => a.eval v / b.eval v

/-- The calibration template `"{0} * 1.8 + 32"` from the spec's example. -/
def fahrenheitCal : CalExpr :=
  .add (.mul .var (.const (9 / 5))) (.const 32)

/-- Per-capability configuration: optional output alias and optional
calibration template (`cap_val` may itself be `None`, hence `Option CapCfg`
at the use site). -/
structure CapCfg where
  aliasName : Option String
  calibration : Option CalExpr
deriving DecidableEq

/-- `round (q * 100)` computed directly on the numerator and denominator:
`⌊(100·q) + 1/2⌋ = ⌊(200·num + den) / (2·den)⌋`.  (Python's float formatting
resolves the measure-zero tie case by round-half-even; ties are immaterial to
every claim checked here.) -/
def roundCenti (q : ℚ) : ℤ :=
  Int.fdiv (2 * (q.num * 100) + q.den) (2 * q.den)

/-- `'{:0.2f}'.format(v)`: fixed-point rendering with exactly two digits
after the decimal point.  The value is scaled by 100 and rounded to the
nearest integer; the two fractional digits are emitted explicitly. -/
def formatFix2 (q : ℚ) : String :=
  let n : ℤ := roundCenti q
  let m : Nat := n.natAbs
  String.mk ((if n < 0 then ['-'] else []) ++ Nat.toDigits 10 (m / 100) ++
    ['.', Nat.digitChar (m / 10 % 10), Nat.digitChar (m % 10)])

/-- A string is a fixed-point decimal with exactly two digits after the
decimal point: its last three characters are a point followed by two digits. -/
def twoDecimalString (s : String) : Bool :=
  match s.data.reverse with
  | c2 :: c1 :: cp :: _ => cp == '.' && c1.isDigit && c2.isDigit
  | _ => false

/-- `class Sensor` — a live driver instance (modelled as the map from raw
field name to the reading the driver returns, or the exception the read
raises) together with the configured capability dict (insertion order). -/
structure Sensor where
  driver : String → Except PyError ℚ
  capabilities : List (String × Option CapCfg)

/-- Python's `str.split('_')` over the characters of the tag: splits at every
underscore, keeping empty pieces (`''.split('_') == ['']`). -/
def splitTag : List Char → List (List Char)
  | [] => [[]]
  | c :: rest =>
    if c = '_' then [] :: splitTag rest
    else match splitTag rest with
      | [] => [[c]]
      | piece :: pieces => (c :: piece) :: pieces

/-- `Sensor.__init__`: splits the compound type tag on `'_'` (unpacking to
exactly two parts, else `ValueError`); requires bus `'I2C'` and driver in
`['BME', 'HTU', 'SHT']`, else raises `Exception('Wrong sensor type: ...')`;
then constructs the driver and stores the capabilities. -/
def Sensor.init (sensor_type : String) (capabilities : List (String × Option CapCfg))
    (driver : String → Except PyError ℚ) : Except PyError Sensor :=
  match (splitTag sensor_type.data).map String.mk with
  | [bus, drv] =>
    if bus = "I2C" ∧ (drv = "BME" ∨ drv = "HTU" ∨ drv = "SHT") then
      .ok ⟨driver, capabilities⟩
    else .error (.exception ("Wrong sensor type: " ++ bus))
  | _ => .error (.exception "ValueError: unpacking sensor_type.split")

/-- The loop body of `Sensor.get_values`, over the remaining capabilities
with the results accumulated so far (`res`).  A driver read fault raises
`Sensor.UnavailableError`, aborting the whole call and discarding `res`. -/
def Sensor.getValuesGo (s : Sensor) :
    List (String × Option CapCfg) → List (String × String) →
    Except PyError (List (String × String))
  | [], res => .ok res
  | (cap_key, cap_val) :: rest, res =>
    match s.driver cap_key with
    | .error _ => .error .sensorUnavailable
    | .ok v =>
      let res_key := match cap_val with
        | some c => match c.aliasName with
          | some a => a
          | none => cap_key
        | none => cap_key
      let res_val := match cap_val with
        | some c => match c.calibration with
          | some e => e.eval v
          | none => v
        | none => v
      Sensor.getValuesGo s rest (res ++ [(res_key, formatFix2 res_val)])

/-- `Sensor.get_values`: iterates the capability dict in insertion order,
reading each raw field from the driver, applying alias and calibration, and
formatting each value with `'{:0.2f}'`. -/
def Sensor.get_values (s : Sensor) : Except PyError (List (String × String)) :=
  Sensor.getValuesGo s s.capabilities []

/-- The output key for one capability: the configured alias when present,
otherwise the raw capability name. -/
def capKeyOut (cap_key : String) (cap_val : Option CapCfg) : String :=
  match cap_val with
  | some c => match c.aliasName with
    | some a => a
    | none => cap_key
  | none => cap_key

/-- The calibrated value for one capability: raw reading run through the
calibration template when configured, unchanged otherwise. -/
def applyCalibration (cap_val : Option CapCfg) (v : ℚ) : ℚ :=
  match cap_val with
  | some c => match c.calibration with
    | some e => e.eval v
    | none => v
  | none => v

/-- The entry `get_values` produces for one capability of sensor `s`, given
that its driver read succeeds (the `getD 0` default is never used then). -/
def expectedEntry (s : Sensor) (kc : String × Option CapCfg) : String × String :=
  (capKeyOut kc.1 kc.2,
    formatFix2 (applyCalibration kc.2 ((s.driver kc.1).toOption.getD 0)))

/-- First-match lookup in an association list, modelling Python dict lookup
(keys are unique in every dict built here). -/
def lookupName {α : Type} : List (String × α) → String → Option α
  | [], _ => none
  | p :: rest, n => if p.1 = n then some p.2 else lookupName rest n

/-- Python dict assignment `d[k] = v`: replace the value in place if the key
exists (keeping its position), otherwise append the new pair at the end. -/
def dictInsert {α : Type} : List (String × α) → String → α → List (String × α)
  | [], k, v => [(k, v)]
  | p :: rest, k, v =>
    if p.1 = k then (k, v) :: rest else p :: dictInsert rest k v

/-- One relay spec from `cfg['relays']`: `{name, type, attrs}`. -/
structure RelaySpec where
  name : String
  type : String
  attrs : Attrs

/-- One sensor spec from `cfg['sensors']`: `{name, type, capabilities?}`,
together with the driver instance its construction would bind. -/
structure SensorSpec where
  name : String
  type : String
  capabilities : List (String × Option CapCfg)
  driver : String → Except PyError ℚ

/-- The startup loop shape shared by the relay and sensor registries: each
spec is constructed independently inside `try`; on success the handle is
stored under the spec's name, on failure the error is logged and the spec is
skipped.  The loop itself never aborts. -/
def buildRegistryFrom {σ α : Type} (f : σ → Except PyError α) (name : σ → String) :
    List (String × α) → List σ → List (String × α)
  | reg, [] => reg
  | reg, sp :: rest =>
    buildRegistryFrom f name
      (match f sp with
       | .ok h => dictInsert reg (name sp) h
       | .error _ => reg) rest

/-- The `relays` init loop: `relays[r['name']] = Relay(r['type'], r['attrs'])`
inside `try/except`. -/
def initRelays (specs : List RelaySpec) : List (String × Relay) :=
  buildRegistryFrom (fun r => Relay.init r.type r.attrs) RelaySpec.name [] specs

/-- The `sensors` init loop: `sensors[s['name']] = Sensor(s['type'], **kwargs)`
inside `try/except`. -/
def initSensors (specs : List SensorSpec) : List (String × Sensor) :=
  buildRegistryFrom (fun s => Sensor.init s.type s.capabilities s.driver)
    SensorSpec.name [] specs

/-- HTTP-level failure of one request, after FastAPI's exception handling:
404 from `RelayField.validate_relay_name`, 422 from the `Path(regex=...)`
validation, 503 from the `UnavailableError` exception handlers, 500 for any
unhandled exception. -/
inductive HttpError where
  | notFound : String → HttpError
  | validation : HttpError
  | unavailable : String → HttpError
  | internal : HttpError
deriving DecidableEq

/-- How an exception escaping a route handler is mapped to a response:
`Relay.UnavailableError` and `Sensor.UnavailableError` have registered
handlers returning 503; every other exception is an unhandled 500. -/
def pyToHttp : PyError → HttpError
  | .relayUnavailable => .unavailable "Relay is not available"
  | .sensorUnavailable => .unavailable "Sensor is not available"
  | _ => .internal

/-- Body of a successful `/api/relay/{name}/{action}` response: the `state`
action returns the bare boolean, the others wrap it as `{'state': res}`. -/
inductive ActionBody where
  | bare : Bool → ActionBody
  | record : Bool → ActionBody
deriving DecidableEq

/-- The fixed action vocabulary `^(on|off|toggle|state)$` of the route. -/
def relayActions : List String := ["on", "off", "toggle", "state"]

/-- `GET /api/relay/{name}/{action}`: FastAPI first validates the path
parameters in declaration order — `RelayField.validate_relay_name` raises a
404 `HTTPException` for a name absent from `relays`, then the
`Path(regex=r'^(on|off|toggle|state)$')` constraint rejects any other action
token with a 422 validation error — and only then runs the handler body,
which performs the action and re-reads the state. -/
def relay_send_action (reg : List (String × Relay)) (w : World)
    (name action : String) :
    Except HttpError ActionBody × World × List TransportOp :=
  match lookupName reg name with
  | none => (.error (.notFound ("Relay [" ++ name ++ "] not found")), w, [])
  | some r =>
    if action ∈ relayActions then
      match (if action = "toggle" then Relay.toggle r w
             else if action = "on" then Relay.set_state r true w
             else if action = "off" then Relay.set_state r false w
             else (.ok (), w, [])) with
      | (.error e, w', ops) => (.error (pyToHttp e), w', ops)
      | (.ok _, w', ops) =>
        match Relay.get_state r w' with
        | (.error e, ops2) => (.error (pyToHttp e), w', ops ++ ops2)
        | (.ok b, ops2) =>
          (.ok (if action = "state" then .bare b else .record b), w',
            ops ++ ops2)
    else (.error .validation, w, [])

/-- One entry of the `GET /api/relay` listing: a full info record, or the
literal `'N/A'` marker for a relay whose `info()` raised `UnavailableError`. -/
inductive InfoEntry where
  | info : RelayInfo → InfoEntry
  | na : InfoEntry
deriving DecidableEq

/-- The loop body of `relay_get_list` over the remaining registry entries with
the results accumulated so far: `try: res[n] = r.info()` with
`except Relay.UnavailableError: res[n] = 'N/A'`; any other exception escapes
the handler and aborts the whole listing. -/
def relayGetListGo (w : World) :
    List (String × Relay) → List (String × InfoEntry) →
    Except PyError (List (String × InfoEntry))
  | [], res => .ok res
  | (n, r) :: rest, res =>
    match (Relay.info r w).1 with
    | .ok i => relayGetListGo w rest (res ++ [(n, .info i)])
    | .error .relayUnavailable => relayGetListGo w rest (res ++ [(n, .na)])
    | .error e => .error e

/-- `GET /api/relay`: builds the name → info/`'N/A'` mapping over the whole
relay registry; an `.ok` result is served as a 200 response. -/
def relay_get_list (reg : List (String × Relay)) (w : World) :
    Except PyError (List (String × InfoEntry)) :=
  relayGetListGo w reg []

/-- `Except.isOk` as a plain boolean discriminator. -/
def exceptIsOk {ε α : Type} : Except ε α → Bool
  | .ok _ => true
  | .error _ => false

deriving instance DecidableEq for Except

/-- A world with every pin low and every endpoint reachable and off. -/
def wAllLow : World := ⟨fun _ => false, fun _ => ⟨.ok, .ok, false⟩⟩

/-- A GPIO relay on pin 5, as built from `{'type': 'GPIO', 'attrs': {'pin': 5}}`. -/
def rPin5 : Relay := ⟨"GPIO", ⟨some 5, none⟩⟩

/-- A WiFi relay on a fixed URL, as built from
`{'type': 'WiFi', 'attrs': {'url': 'http://sw'}}`. -/
def rWifi : Relay := ⟨"WiFi", ⟨none, some "http://sw"⟩⟩

theorem get_state_gpio (p : Nat) (u : Option String) (w : World) :
    Relay.get_state ⟨"GPIO", ⟨some p, u⟩⟩ w = (.ok (!(w.pins p)), [.pinRead p]) := rfl

theorem set_state_gpio (p : Nat) (u : Option String) (w : World) (s : Bool) :
    Relay.set_state ⟨"GPIO", ⟨some p, u⟩⟩ s w =
      if (!(w.pins p)) = s then (.ok (), w, [.pinRead p])
      else (.ok (), ⟨Function.update w.pins p (!s), w.remote⟩,
        [.pinRead p, .pinWrite p (if s then 0 else 1)]) := by
  by_cases h : (!(w.pins p)) = s <;>
    simp [Relay.set_state, get_state_gpio, h]

theorem get_state_ops_no_writes (r : Relay) (w : World) :
    writeCount (Relay.get_state r w).2 = 0 := by
  unfold Relay.get_state
  by_cases h1 : r.type = "GPIO"
  · rcases hp : r.attrs.pin with _ | p <;>
      simp [h1, hp, writeCount, TransportOp.isWrite]
  · by_cases h2 : r.type = "WiFi"
    · rcases hu : r.attrs.url with _ | u
      · simp [h1, h2, hu, writeCount]
      · rcases hg : (w.remote u).getOutcome <;>
          simp [h1, h2, hu, hg, writeCount, TransportOp.isWrite]
    · simp [h1, h2, writeCount]

/-- C1: for any Pin (GPIO) relay, the logical state round-trips through the
active-low transport: after `set_state(s)` a `get_state()` returns `s`; the
raw pin level left behind is the inversion `!s`; and `get_state` returns the
inversion of the raw pin level. -/
theorem pin_relay_roundtrip (p : Nat) (u : Option String) (w : World) (s : Bool) :
    (Relay.get_state ⟨"GPIO", ⟨some p, u⟩⟩
        ((Relay.set_state ⟨"GPIO", ⟨some p, u⟩⟩ s w).2.1)).1 = .ok s ∧
    ((Relay.set_state ⟨"GPIO", ⟨some p, u⟩⟩ s w).2.1).pins p = !s ∧
    (Relay.get_state ⟨"GPIO", ⟨some p, u⟩⟩ w).1 = .ok (!(w.pins p)) := by
  rw [set_state_gpio]
  by_cases h : (!(w.pins p)) = s
  · have hl : w.pins p = !s := by
      cases hw : w.pins p <;> cases s <;> simp_all
    simp [h, get_state_gpio, hl]
  · simp [h, get_state_gpio]

/-- C2: `set_state(s)` first reads the current state; if the read returns `s`
the call is a no-op returning only the read's transport log and the unchanged
world; if the read raises, the same exception propagates with no further
transport operation; and the read's transport log contains zero writes. -/
theorem set_state_read_before_write (r : Relay) (s : Bool) (w : World) :
    ((Relay.get_state r w).1 = .ok s →
      Relay.set_state r s w = (.ok (), w, (Relay.get_state r w).2)) ∧
    (∀ e, (Relay.get_state r w).1 = .error e →
      Relay.set_state r s w = (.error e, w, (Relay.get_state r w).2)) ∧
    writeCount (Relay.get_state r w).2 = 0 := by
  refine ⟨?_, ?_, get_state_ops_no_writes r w⟩
  · intro h
    rcases hg : Relay.get_state r w with ⟨g, ops⟩
    rw [hg] at h
    simp only at h
    subst h
    unfold Relay.set_state
    rw [hg]
    simp
  · intro e h
    rcases hg : Relay.get_state r w with ⟨g, ops⟩
    rw [hg] at h
    simp only at h
    subst h
    unfold Relay.set_state
    rw [hg]

/-- Witness for C2 at concrete inputs: pin 5 is low in `wAllLow`, so the
current logical state is `true` and `set_state(true)` is a pure no-op after
the single pin read. -/
theorem set_state_read_before_write_witness :
    Relay.set_state rPin5 true wAllLow =
      (.ok (), wAllLow, (Relay.get_state rPin5 wAllLow).2) :=
  (set_state_read_before_write rPin5 true wAllLow).1 (by decide)

theorem get_state_wifi (pn : Option Nat) (u : String) (w : World) :
    Relay.get_state ⟨"WiFi", ⟨pn, some u⟩⟩ w =
      (match (w.remote u).getOutcome with
       | .ok => (.ok (w.remote u).state, [.httpGet u])
       | .connRefused => (.error .relayUnavailable, [.httpGet u])
       | .connectTimeout => (.error .relayUnavailable, [.httpGet u])
       | .readTimeout => (.error .readTimeoutError, [.httpGet u])) := rfl

theorem toggle_gpio (p : Nat) (u : Option String) (w : World) :
    Relay.toggle ⟨"GPIO", ⟨some p, u⟩⟩ w =
      (.ok (), ⟨Function.update w.pins p (!(w.pins p)), w.remote⟩,
        [.pinRead p, .pinRead p, .pinWrite p (if w.pins p then 0 else 1)]) := by
  simp [Relay.toggle, get_state_gpio, set_state_gpio]

theorem toggle_wifi (pn : Option Nat) (u : String) (w : World)
    (hg : (w.remote u).getOutcome = .ok) (hp : (w.remote u).putOutcome = .ok) :
    Relay.toggle ⟨"WiFi", ⟨pn, some u⟩⟩ w =
      (.ok (), ⟨w.pins, Function.update w.remote u
          { w.remote u with state := !(w.remote u).state }⟩,
        [.httpGet u, .httpGet u,
          .httpPut u (if (w.remote u).state then 0 else 1)]) := by
  simp [Relay.toggle, Relay.set_state, get_state_wifi, hg, hp]
  cases hs : (w.remote u).state <;> simp [hs]

/-- C3 counterexample: on a concrete GPIO relay a successful `toggle()`
performs two transport reads, not one — `set_state` re-reads the state
before writing, on top of `toggle`'s own read. -/
theorem toggle_two_reads_counterexample :
    (Relay.toggle rPin5 wAllLow).1 = .ok () ∧
    readCount (Relay.toggle rPin5 wAllLow).2.2 = 2 ∧
    readCount (Relay.toggle rPin5 wAllLow).2.2 ≠ 1 ∧
    writeCount (Relay.toggle rPin5 wAllLow).2.2 = 1 := by decide

/-- C3 (amended): `toggle()` is equivalent to `set_state(not get_state())`
(same outcome and same resulting world); a successful toggle performs exactly
two transport reads and one transport write, because `set_state` reads again
before writing; and toggling twice returns the relay to its original logical
state. -/
theorem toggle_amended (r : Relay) (w : World)
    (h : (r.type = "GPIO" ∧ ∃ p, r.attrs.pin = some p) ∨
         (r.type = "WiFi" ∧ ∃ u, r.attrs.url = some u ∧
           (w.remote u).getOutcome = .ok ∧ (w.remote u).putOutcome = .ok)) :
    (∀ b, (Relay.get_state r w).1 = .ok b →
      (Relay.toggle r w).1 = (Relay.set_state r (!b) w).1 ∧
      (Relay.toggle r w).2.1 = (Relay.set_state r (!b) w).2.1) ∧
    (Relay.toggle r w).1 = .ok () ∧
    readCount (Relay.toggle r w).2.2 = 2 ∧
    writeCount (Relay.toggle r w).2.2 = 1 ∧
    (Relay.toggle r ((Relay.toggle r w).2.1)).1 = .ok () ∧
    (Relay.get_state r ((Relay.toggle r ((Relay.toggle r w).2.1)).2.1)).1 =
      (Relay.get_state r w).1 := by
  have heq : ∀ b, (Relay.get_state r w).1 = .ok b →
      (Relay.toggle r w).1 = (Relay.set_state r (!b) w).1 ∧
      (Relay.toggle r w).2.1 = (Relay.set_state r (!b) w).2.1 := by
    intro b hb
    rcases hg : Relay.get_state r w with ⟨g, ops⟩
    rw [hg] at hb
    simp only at hb
    subst hb
    unfold Relay.toggle
    rw [hg]
    rcases hs : Relay.set_state r (!b) w with ⟨res, w', ops'⟩
    simp [hs]
  refine ⟨heq, ?_⟩
  obtain ⟨t, pn, un⟩ := r
  rcases h with ⟨ht, p, hp⟩ | ⟨ht, u, hu, hgo, hpo⟩
  · simp only at ht hp
    subst ht; subst hp
    rw [toggle_gpio]
    dsimp only
    rw [toggle_gpio]
    refine ⟨rfl, ?_, ?_, rfl, ?_⟩
    · simp [readCount, List.filter, TransportOp.isRead]
    · simp [writeCount, List.filter, TransportOp.isWrite]
    · dsimp only
      rw [get_state_gpio, get_state_gpio]
      simp [Function.update_same]
  · simp only at ht hu
    subst ht; subst hu
    rw [toggle_wifi pn u w hgo hpo]
    dsimp only
    have hgo' : ((⟨w.pins, Function.update w.remote u
        { w.remote u with state := !(w.remote u).state }⟩ : World).remote u).getOutcome = .ok := by
      simp [Function.update_same, hgo]
    have hpo' : ((⟨w.pins, Function.update w.remote u
        { w.remote u with state := !(w.remote u).state }⟩ : World).remote u).putOutcome = .ok := by
      simp [Function.update_same, hpo]
    rw [toggle_wifi pn u _ hgo' hpo']
    refine ⟨rfl, ?_, ?_, rfl, ?_⟩
    · simp [readCount, List.filter, TransportOp.isRead]
    · simp [writeCount, List.filter, TransportOp.isWrite]
    · dsimp only
      rw [get_state_wifi, get_state_wifi]
      simp [Function.update_same, hgo]

/-- Witness for C3 (amended) at concrete inputs: a GPIO relay on pin 5 in the
all-low world. -/
theorem toggle_amended_witness :
    (Relay.toggle rPin5 wAllLow).1 = .ok () ∧
    readCount (Relay.toggle rPin5 wAllLow).2.2 = 2 ∧
    writeCount (Relay.toggle rPin5 wAllLow).2.2 = 1 ∧
    (Relay.toggle rPin5 ((Relay.toggle rPin5 wAllLow).2.1)).1 = .ok () ∧
    (Relay.get_state rPin5
        ((Relay.toggle rPin5 ((Relay.toggle rPin5 wAllLow).2.1)).2.1)).1 =
      (Relay.get_state rPin5 wAllLow).1 :=
  (toggle_amended rPin5 wAllLow (Or.inl ⟨rfl, 5, rfl⟩)).2

/-- A world in which every endpoint refuses connections. -/
def wConnRefused : World :=
  ⟨fun _ => false, fun _ => ⟨.connRefused, .connRefused, false⟩⟩

/-- A world in which every endpoint accepts the connection but times out
before sending its response (`requests.exceptions.ReadTimeout`). -/
def wReadTimeout : World :=
  ⟨fun _ => false, fun _ => ⟨.readTimeout, .readTimeout, false⟩⟩

/-- C4 counterexample: the claim covers "connection refused or remote
timeout", but on a WiFi relay whose endpoint times out while the response is
being read, `get_state` (and `set_state`, which reads first) raises the
uncaught generic `requests.exceptions.ReadTimeout` — not the distinct
`UnavailableError` — because `ReadTimeout` is not a `ConnectionError` and the
code catches only `ConnectionError`. -/
theorem wifi_read_timeout_counterexample :
    (Relay.get_state rWifi wReadTimeout).1 = .error .readTimeoutError ∧
    (Relay.set_state rWifi true wReadTimeout).1 = .error .readTimeoutError ∧
    PyError.readTimeoutError ≠ PyError.relayUnavailable := by decide

/-- C4 (amended): for a WiFi relay, a connection-level failure of the
endpoint (connection refused or connect timeout — the `ConnectionError`
family) makes both `get_state` and `set_state` raise the distinct
`UnavailableError`: directly for `get_state` and for `set_state`'s initial
read, and likewise for the PUT when the read succeeded but the write must
happen.  A read timeout, however, escapes `get_state` as a generic
exception. -/
theorem wifi_unavailable_amended (pn : Option Nat) (u : String) (w : World)
    (s : Bool) :
    ((w.remote u).getOutcome.isConnErr = true →
      (Relay.get_state ⟨"WiFi", ⟨pn, some u⟩⟩ w).1 = .error .relayUnavailable ∧
      (Relay.set_state ⟨"WiFi", ⟨pn, some u⟩⟩ s w).1 = .error .relayUnavailable) ∧
    ((w.remote u).getOutcome = .ok → (w.remote u).state ≠ s →
      (w.remote u).putOutcome.isConnErr = true →
      (Relay.set_state ⟨"WiFi", ⟨pn, some u⟩⟩ s w).1 = .error .relayUnavailable) ∧
    ((w.remote u).getOutcome = .readTimeout →
      (Relay.get_state ⟨"WiFi", ⟨pn, some u⟩⟩ w).1 = .error .readTimeoutError) := by
  refine ⟨?_, ?_, ?_⟩
  · intro h
    rcases hg : (w.remote u).getOutcome <;>
      simp [NetOutcome.isConnErr, hg] at h ⊢ <;>
      simp [Relay.set_state, Relay.get_state, hg]
  · intro hok hne hput
    rcases hp : (w.remote u).putOutcome <;>
      simp [NetOutcome.isConnErr, hp] at hput ⊢ <;>
      simp [Relay.set_state, get_state_wifi, hok, hp, hne]
  · intro hg
    simp [get_state_wifi, hg]

/-- Witness for C4 (amended) at concrete inputs: an endpoint refusing
connections. -/
theorem wifi_unavailable_amended_witness :
    (Relay.get_state rWifi wConnRefused).1 = .error .relayUnavailable ∧
    (Relay.set_state rWifi true wConnRefused).1 = .error .relayUnavailable :=
  (wifi_unavailable_amended none "http://sw" wConnRefused true).1 rfl

theorem sensor_go_unavailable (s : Sensor) (k : String) (e : PyError)
    (he : s.driver k = .error e) :
    ∀ caps, (∃ c, (k, c) ∈ caps) →
      ∀ res, Sensor.getValuesGo s caps res = .error .sensorUnavailable := by
  intro caps
  induction caps with
  | nil => rintro ⟨c, hc⟩; simp at hc
  | cons hd tl ih =>
    rintro ⟨c, hc⟩ res
    obtain ⟨k', c'⟩ := hd
    rcases hd' : s.driver k' with e' | v
    · simp [Sensor.getValuesGo, hd']
    · rcases List.mem_cons.mp hc with heq | hmem
      · injection heq with h1 h2
        subst h1
        rw [he] at hd'
        exact absurd hd' (by simp)
      · simp only [Sensor.getValuesGo, hd']
        exact ih ⟨c, hmem⟩ _

/-- C5: if the driver read of any one configured capability raises, the whole
`get_values()` call raises the uniform `Sensor.UnavailableError` and returns
no partial record — whatever was accumulated for earlier capabilities is
discarded. -/
theorem sensor_all_or_nothing (s : Sensor) (k : String) (c : Option CapCfg)
    (hmem : (k, c) ∈ s.capabilities) (e : PyError)
    (he : s.driver k = .error e) :
    Sensor.get_values s = .error .sensorUnavailable :=
  sensor_go_unavailable s k e he s.capabilities ⟨c, hmem⟩ []

/-- A sensor whose driver exposes only `temperature`; reading any other field
raises `AttributeError`.  Its capability dict lists `temperature` first and
`humidity` second. -/
def sBroken : Sensor :=
  ⟨fun k => if k = "temperature" then .ok 21 else .error (.exception "AttributeError"),
   [("temperature", none), ("humidity", none)]⟩

/-- Witness for C5 at concrete inputs: the first capability of `sBroken`
reads fine, the second raises, and the whole call returns the unavailable
condition with no partial record. -/
theorem sensor_all_or_nothing_witness :
    Sensor.get_values sBroken = .error .sensorUnavailable :=
  sensor_all_or_nothing sBroken "humidity" none (by decide)
    (.exception "AttributeError") (by decide)

theorem sensor_go_ok (s : Sensor) :
    ∀ caps, (∀ kc ∈ caps, exceptIsOk (s.driver kc.1) = true) →
      ∀ res, Sensor.getValuesGo s caps res =
        .ok (res ++ caps.map (expectedEntry s)) := by
  intro caps
  induction caps with
  | nil => intro _ res; simp [Sensor.getValuesGo]
  | cons hd tl ih =>
    intro h res
    obtain ⟨k, c⟩ := hd
    have hk := h (k, c) (List.mem_cons_self _ _)
    rcases hd' : s.driver k with e | v
    · rw [hd'] at hk
      simp [exceptIsOk] at hk
    · simp only [Sensor.getValuesGo, hd']
      have htl : ∀ kc ∈ tl, exceptIsOk (s.driver kc.1) = true :=
        fun kc hm => h kc (List.mem_cons_of_mem _ hm)
      rw [ih htl]
      simp [expectedEntry, capKeyOut, applyCalibration, hd', Except.toOption]

theorem twoDecimal_formatFix2 (q : ℚ) : twoDecimalString (formatFix2 q) = true := by
  have h1 : ∀ d : Nat, d < 10 → (Nat.digitChar d).isDigit = true := by decide
  have ha := h1 ((roundCenti q).natAbs / 10 % 10) (Nat.mod_lt _ (by norm_num))
  have hb := h1 ((roundCenti q).natAbs % 10) (Nat.mod_lt _ (by norm_num))
  unfold formatFix2 twoDecimalString
  simp [List.reverse_append, ha, hb]

/-- C6: when every configured driver read succeeds, `get_values()` produces,
in configuration order, one entry per capability whose output key is the
configured alias when present (the raw capability name otherwise) and whose
value is the raw reading with the calibration template applied when
configured, rendered by `'{:0.2f}'`; every produced value is a fixed-point
decimal string with exactly two digits after the point; and the spec's
example holds: calibration `"{0} * 1.8 + 32"` on raw value `20` yields
`"68.00"`. -/
theorem sensor_values_spec (s : Sensor)
    (h : ∀ kc ∈ s.capabilities, exceptIsOk (s.driver kc.1) = true) :
    Sensor.get_values s = .ok (s.capabilities.map (expectedEntry s)) ∧
    (∀ kv ∈ s.capabilities.map (expectedEntry s), twoDecimalString kv.2 = true) ∧
    formatFix2 (CalExpr.eval fahrenheitCal 20) = "68.00" := by
  refine ⟨?_, ?_, ?_⟩
  · have hgo := sensor_go_ok s s.capabilities h []
    simpa [Sensor.get_values] using hgo
  · intro kv hkv
    rcases List.mem_map.mp hkv with ⟨kc, _, rfl⟩
    exact twoDecimal_formatFix2 _
  · have h68 : CalExpr.eval fahrenheitCal 20 = 68 := by
      simp [fahrenheitCal, CalExpr.eval]
      norm_num
    rw [h68]
    decide

/-- A sensor reading `temperature` as the raw value 20, configured with
`temperature: {alias: temp, calibration: "{0} * 1.8 + 32"}`. -/
def sTemp : Sensor :=
  ⟨fun k => if k = "temperature" then .ok 20 else .error (.exception "AttributeError"),
   [("temperature", some ⟨some "temp", some fahrenheitCal⟩)]⟩

/-- Witness for C6 at concrete inputs. -/
theorem sensor_values_spec_witness :
    Sensor.get_values sTemp = .ok (sTemp.capabilities.map (expectedEntry sTemp)) ∧
    (∀ kv ∈ sTemp.capabilities.map (expectedEntry sTemp),
      twoDecimalString kv.2 = true) ∧
    formatFix2 (CalExpr.eval fahrenheitCal 20) = "68.00" :=
  sensor_values_spec sTemp (by decide)

/-- C7: `GET /api/relay/{name}/{action}` with a name absent from the relay
registry answers 404 whatever the action token is, with no transport
operation; with a registered name and an action outside
`{on, off, toggle, state}` it answers a 422 validation error, again before
any device I/O. -/
theorem relay_route_validation (reg : List (String × Relay)) (w : World)
    (name action : String) :
    (lookupName reg name = none →
      relay_send_action reg w name action =
        (.error (.notFound ("Relay [" ++ name ++ "] not found")), w, [])) ∧
    (lookupName reg name ≠ none → action ∉ relayActions →
      relay_send_action reg w name action = (.error .validation, w, [])) := by
  constructor
  · intro h
    simp [relay_send_action, h]
  · intro h ha
    rcases hl : lookupName reg name with _ | r
    · exact absurd hl h
    · simp [relay_send_action, hl, ha]

/-- Witness for C7 at concrete inputs: a one-relay registry; `no-such` is
unknown (404 for any action, here `bogus`), and `bogus` is not a valid action
for the known name `heater`. -/
theorem relay_route_validation_witness :
    relay_send_action [("heater", rPin5)] wAllLow "no-such" "bogus" =
      (.error (.notFound "Relay [no-such] not found"), wAllLow, []) ∧
    relay_send_action [("heater", rPin5)] wAllLow "heater" "bogus" =
      (.error .validation, wAllLow, []) :=
  ⟨by
    have h := (relay_route_validation [("heater", rPin5)] wAllLow "no-such" "bogus").1
      (by decide)
    simpa using h,
   (relay_route_validation [("heater", rPin5)] wAllLow "heater" "bogus").2
    (by decide) (by decide)⟩

theorem relayGetListGo_ok (w : World) :
    ∀ reg, (∀ p ∈ reg, exceptIsOk (Relay.info p.2 w).1 = true ∨
        (Relay.info p.2 w).1 = .error .relayUnavailable) →
      ∀ res, relayGetListGo w reg res = .ok (res ++ reg.map (fun p => (p.1,
        match (Relay.info p.2 w).1 with
        | .ok i => InfoEntry.info i
        | .error _ => InfoEntry.na))) := by
  intro reg
  induction reg with
  | nil => intro _ res; simp [relayGetListGo]
  | cons hd tl ih =>
    intro h res
    obtain ⟨n, r⟩ := hd
    have hh := h (n, r) (List.mem_cons_self _ _)
    have htl : ∀ p ∈ tl, exceptIsOk (Relay.info p.2 w).1 = true ∨
        (Relay.info p.2 w).1 = .error .relayUnavailable :=
      fun p hm => h p (List.mem_cons_of_mem _ hm)
    rcases hi : (Relay.info r w).1 with e | i
    · rcases hh with hok | herr
      · rw [hi] at hok
        simp [exceptIsOk] at hok
      · rw [hi] at herr
        injection herr with he
        subst he
        simp only [relayGetListGo, hi]
        rw [ih htl]
        simp [hi]
    · simp only [relayGetListGo, hi]
      rw [ih htl]
      simp [hi]

/-- C8: as long as every registered relay's `info()` either succeeds or
raises `UnavailableError`, `GET /api/relay` succeeds (a 200 response) and
returns one entry per configured relay, in registry order: the `'N/A'` marker
exactly for the relays whose `info()` raised `UnavailableError`, and the full
info record for all others — one unreachable relay never fails the whole
listing. -/
theorem relay_list_resilient (reg : List (String × Relay)) (w : World)
    (h : ∀ p ∈ reg, exceptIsOk (Relay.info p.2 w).1 = true ∨
        (Relay.info p.2 w).1 = .error .relayUnavailable) :
    relay_get_list reg w = .ok (reg.map (fun p => (p.1,
      match (Relay.info p.2 w).1 with
      | .ok i => InfoEntry.info i
      | .error _ => InfoEntry.na))) ∧
    (reg.map (fun p => (p.1,
      match (Relay.info p.2 w).1 with
      | .ok i => InfoEntry.info i
      | .error _ => InfoEntry.na))).map Prod.fst = reg.map Prod.fst := by
  constructor
  · have hgo := relayGetListGo_ok w reg h []
    simpa [relay_get_list] using hgo
  · simp

/-- Witness for C8 at concrete inputs: a registry with a reachable GPIO relay
and a WiFi relay whose endpoint refuses connections, in a world where every
endpoint is refusing; the listing still succeeds, with the marker only for
the WiFi entry. -/
theorem relay_list_resilient_witness :
    relay_get_list [("heater", rPin5), ("lamp", rWifi)] wConnRefused =
      .ok ([("heater", rPin5), ("lamp", rWifi)].map (fun p => (p.1,
        match (Relay.info p.2 wConnRefused).1 with
        | .ok i => InfoEntry.info i
        | .error _ => InfoEntry.na))) ∧
    ([("heater", rPin5), ("lamp", rWifi)].map (fun p => (p.1,
      match (Relay.info p.2 wConnRefused).1 with
      | .ok i => InfoEntry.info i
      | .error _ => InfoEntry.na))).map Prod.fst =
      [("heater", rPin5), ("lamp", rWifi)].map Prod.fst :=
  relay_list_resilient [("heater", rPin5), ("lamp", rWifi)] wConnRefused
    (by decide)

theorem lookupName_dictInsert {α : Type} (reg : List (String × α))
    (k n : String) (v : α) :
    lookupName (dictInsert reg k v) n =
      if k = n then some v else lookupName reg n := by
  induction reg with
  | nil => simp [dictInsert, lookupName]
  | cons p rest ih =>
    by_cases hpk : p.1 = k
    · by_cases hkn : k = n <;>
        simp [dictInsert, lookupName, hpk, hkn]
    · by_cases hpn : p.1 = n
      · have hkn : ¬k = n := fun h => hpk (h ▸ hpn ▸ rfl)
        have hnk : ¬n = k := fun h => hkn h.symm
        simp [dictInsert, lookupName, hpk, hpn, hkn, hnk]
      · simp [dictInsert, lookupName, hpk, hpn, ih]

theorem buildRegistryFrom_lookup_notmem {σ α : Type} (f : σ → Except PyError α)
    (name : σ → String) (n : String) :
    ∀ specs reg, (∀ sp ∈ specs, name sp ≠ n) →
      lookupName (buildRegistryFrom f name reg specs) n = lookupName reg n := by
  intro specs
  induction specs with
  | nil => intro reg _; rfl
  | cons sp rest ih =>
    intro reg h
    have hsp := h sp (List.mem_cons_self _ _)
    have hrest : ∀ x ∈ rest, name x ≠ n :=
      fun x hx => h x (List.mem_cons_of_mem _ hx)
    simp only [buildRegistryFrom]
    rcases hf : f sp with e | hnd
    · exact ih _ hrest
    · rw [ih _ hrest, lookupName_dictInsert]
      simp [hsp]

theorem buildRegistryFrom_lookup {σ α : Type} (f : σ → Except PyError α)
    (name : σ → String) (n : String) :
    ∀ specs reg, (specs.map name).Nodup →
      lookupName (buildRegistryFrom f name reg specs) n =
        (match specs.find? (fun sp => name sp == n) with
         | some sp => match f sp with
           | .ok h => some h
           | .error _ => lookupName reg n
         | none => lookupName reg n) := by
  intro specs
  induction specs with
  | nil => intro reg _; rfl
  | cons sp rest ih =>
    intro reg hnd
    simp only [List.map_cons, List.nodup_cons] at hnd
    obtain ⟨hnotin, hnd'⟩ := hnd
    by_cases hn : name sp = n
    · rw [List.find?_cons_of_pos _ (by simp [hn])]
      have hrest : ∀ x ∈ rest, name x ≠ n := by
        intro x hx hxn
        exact hnotin (hn ▸ hxn ▸ List.mem_map_of_mem name hx)
      simp only [buildRegistryFrom]
      rcases hf : f sp with e | h2
      · rw [buildRegistryFrom_lookup_notmem f name n rest _ hrest]
      · rw [buildRegistryFrom_lookup_notmem f name n rest _ hrest,
          lookupName_dictInsert]
        simp [hn]
    · rw [List.find?_cons_of_neg _ (by simp [hn])]
      simp only [buildRegistryFrom]
      rcases hf : f sp with e | h2
      · exact ih _ hnd'
      · rw [ih _ hnd']
        rcases hfind : rest.find? (fun x => name x == n) with _ | sp'
        · simp [lookupName_dictInsert, hn]
        · rcases hf2 : f sp' with e2 | h3
          · simp [lookupName_dictInsert, hn, hf2]
          · simp [hf2]

/-- C9: with distinct names in the startup configuration, every device spec
is constructed independently: in the finished registry a spec's name maps to
its handle exactly when its constructor succeeded, and is simply absent when
the constructor raised — independent of whether any other spec (before or
after it) failed; the init loops themselves always run to completion. -/
theorem registry_independent_construction (rs : List RelaySpec)
    (ss : List SensorSpec) (n : String)
    (h1 : (rs.map RelaySpec.name).Nodup)
    (h2 : (ss.map SensorSpec.name).Nodup) :
    lookupName (initRelays rs) n =
      (match rs.find? (fun sp => sp.name == n) with
       | some sp => (Relay.init sp.type sp.attrs).toOption
       | none => none) ∧
    lookupName (initSensors ss) n =
      (match ss.find? (fun sp => sp.name == n) with
       | some sp => (Sensor.init sp.type sp.capabilities sp.driver).toOption
       | none => none) := by
  constructor
  · rw [initRelays, buildRegistryFrom_lookup _ _ _ rs [] h1]
    rcases hfind : rs.find? (fun sp => sp.name == n) with _ | sp <;> rw [hfind]
    · rfl
    · rcases hf : Relay.init sp.type sp.attrs with e | h <;>
        simp [hf, Except.toOption, lookupName]
  · rw [initSensors, buildRegistryFrom_lookup _ _ _ ss [] h2]
    rcases hfind : ss.find? (fun sp => sp.name == n) with _ | sp <;> rw [hfind]
    · rfl
    · rcases hf : Sensor.init sp.type sp.capabilities sp.driver with e | h <;>
        simp [hf, Except.toOption, lookupName]

/-- Relay startup specs: `bad` lacks the `pin` attribute its `GPIO` type
needs (its constructor raises `KeyError`), `good` is fine and comes after. -/
def rsEx : List RelaySpec :=
  [⟨"bad", "GPIO", ⟨none, none⟩⟩, ⟨"good", "GPIO", ⟨some 5, none⟩⟩]

/-- A driver whose every field reads 0. -/
def drvZero : String → Except PyError ℚ := fun _ => .ok 0

/-- Sensor startup specs: `badsensor` has an unrecognized driver tag (its
constructor raises), `goodsensor` is fine and comes after. -/
def ssEx : List SensorSpec :=
  [⟨"badsensor", "I2C_XXX", [], drvZero⟩, ⟨"goodsensor", "I2C_BME", [], drvZero⟩]

/-- Witness for C9 at concrete inputs: the failed specs are absent from their
registries, and the devices constructed after each failure are registered. -/
theorem registry_independent_construction_witness :
    lookupName (initRelays rsEx) "bad" = none ∧
    lookupName (initRelays rsEx) "good" = some ⟨"GPIO", ⟨some 5, none⟩⟩ ∧
    lookupName (initSensors ssEx) "badsensor" = none ∧
    lookupName (initSensors ssEx) "goodsensor" = some ⟨drvZero, []⟩ :=
  ⟨((registry_independent_construction rsEx ssEx "bad"
      (by decide) (by decide)).1).trans (by decide),
   ((registry_independent_construction rsEx ssEx "good"
      (by decide) (by decide)).1).trans (by decide),
   ((registry_independent_construction rsEx ssEx "badsensor"
      (by decide) (by decide)).2).trans rfl,
   ((registry_independent_construction rsEx ssEx "goodsensor"
      (by decide) (by decide)).2).trans rfl⟩

/-- C10: relay construction never validates the type tag: for any type string
other than `'GPIO'` and `'WiFi'` the constructor succeeds and the startup
loop registers the handle, but every subsequent `get_state()` — and hence
`info()`, `toggle()` and the relay action route — fails with the generic
`UnboundLocalError` (the local `res` is returned without ever being
assigned), which is distinct from the `UnavailableError` condition; the route
layer surfaces it as an unhandled 500, not as NotFound or Unavailable. -/
theorem relay_unknown_type (t : String) (attrs : Attrs) (w : World) (n : String)
    (h1 : t ≠ "GPIO") (h2 : t ≠ "WiFi") :
    Relay.init t attrs = .ok ⟨t, attrs⟩ ∧
    initRelays [⟨n, t, attrs⟩] = [(n, ⟨t, attrs⟩)] ∧
    (Relay.get_state ⟨t, attrs⟩ w).1 = .error .unboundLocal ∧
    (Relay.info ⟨t, attrs⟩ w).1 = .error .unboundLocal ∧
    (Relay.toggle ⟨t, attrs⟩ w).1 = .error .unboundLocal ∧
    (relay_send_action [(n, ⟨t, attrs⟩)] w n "state").1 = .error .internal ∧
    PyError.unboundLocal ≠ PyError.relayUnavailable := by
  have hg : Relay.get_state ⟨t, attrs⟩ w = (.error .unboundLocal, []) := by
    simp [Relay.get_state, h1, h2]
  refine ⟨?_, ?_, ?_, ?_, ?_, ?_, by simp⟩
  · simp [Relay.init, h1]
  · simp [initRelays, buildRegistryFrom, Relay.init, h1, dictInsert]
  · rw [hg]
  · simp [Relay.info, hg]
  · simp [Relay.toggle, hg]
  · simp [relay_send_action, lookupName, relayActions, hg, pyToHttp]

/-- Witness for C10 at the concrete type tag `'Foo'`. -/
theorem relay_unknown_type_witness :
    Relay.init "Foo" ⟨none, none⟩ = .ok ⟨"Foo", ⟨none, none⟩⟩ ∧
    initRelays [⟨"x", "Foo", ⟨none, none⟩⟩] = [("x", ⟨"Foo", ⟨none, none⟩⟩)] ∧
    (Relay.get_state ⟨"Foo", ⟨none, none⟩⟩ wAllLow).1 = .error .unboundLocal ∧
    (Relay.info ⟨"Foo", ⟨none, none⟩⟩ wAllLow).1 = .error .unboundLocal ∧
    (Relay.toggle ⟨"Foo", ⟨none, none⟩⟩ wAllLow).1 = .error .unboundLocal ∧
    (relay_send_action [("x", ⟨"Foo", ⟨none, none⟩⟩)] wAllLow "x" "state").1 =
      .error .internal ∧
    PyError.unboundLocal ≠ PyError.relayUnavailable :=
  relay_unknown_type "Foo" ⟨none, none⟩ wAllLow "x" (by decide) (by decide)
